import Mathlib

/-!
Shallow embedding of the decision core of the hznxin travel recommender
(progressive planner, W-axis tension analysis, scoring engine, quality
filter, explanation layer), together with theorems settling the claims
about it.

Conventions used throughout:
* Python floats are modelled as rationals (`ℚ`); every float literal in
  the source is an exact rational, and the idealised arithmetic matches
  the source formulas.
* The haversine distance is computed in the source with floating-point
  trigonometry (`math.sin`, `math.cos`, `math.asin`); functions that
  consume it take the straight-line distance `d : ℚ` as an argument.
* `math.exp` and `math.log10` are transcendental; the one place a value
  of `exp` enters a formula we work in `ℝ` with `Real.exp`, and the one
  place `log10` enters (review-count popularity) the already-divided
  term is taken as a parameter.
* Python dictionaries read with `dict.get(key, default)` are modelled as
  total functions (the default is applied by the accessor); dictionaries
  whose truthiness is tested are modelled as association lists.
* `random.choice(templates)` is modelled by an explicit draw `r : ℕ`
  indexing into the template list modulo its length.
-/

namespace TravelAI

/-- POI categories, from `POIType` in src/core/models.py. -/
inductive POIType where
  | attraction
  | restaurant
  | hotel
  | transportHub
  | shopping
  | entertainment
  | station
deriving DecidableEq

/-- Transport modes, from `TransportMode` in src/core/models.py. -/
inductive TransportMode where
  | walk
  | taxi
  | bus
  | subway
  | bicycle
deriving DecidableEq

/-- The `value` string of a `TransportMode` member. -/
def TransportMode.value : TransportMode → String
  | .walk => "walk"
  | .taxi => "taxi"
  | .bus => "bus"
  | .subway => "subway"
  | .bicycle => "bicycle"

/-- A point of interest, from `Location` in src/core/models.py.
`openingWindow` models the entry of the `opening_hours` dict for the
current weekday: `none` when the key is absent (the source then treats
the POI as always open). -/
structure Location where
  id : String
  name : String
  lat : ℚ
  lon : ℚ
  ptype : POIType
  address : String := ""
  city : String := ""
  phone : String := ""
  rating : ℚ := 0
  openingWindow : Option (ℚ × ℚ) := none
  averageVisitTime : ℚ := 2
  ticketPrice : ℚ := 0
deriving DecidableEq

/-- A transport edge between two locations, from `Edge` in
src/core/models.py. -/
structure Edge where
  id : String
  fromLoc : Location
  toLoc : Location
  mode : TransportMode
  distance : ℚ
  time : ℚ
  cost : ℚ
deriving DecidableEq

/-- One rating source, from `DataSource` in src/core/models.py
(the `last_update` timestamp is irrelevant to every computation we
model and is omitted). -/
structure DataSource where
  name : String
  rating : ℚ
  reviewCount : ℕ
  weight : ℚ := 33/100
  credibility : ℚ := 1
deriving DecidableEq

/-- Verification data for a node, from `NodeVerification` in
src/core/models.py. -/
structure NodeVerification where
  dataSources : List DataSource := []
  consistencyScore : ℚ := 0
  weightedRating : ℚ := 0
  ratingVariance : ℚ := 0
  totalReviews : ℕ := 0
  validReviews : ℕ := 0
  fakeRate : ℚ := 0
  positiveRate : ℚ := 0
  negativeRate : ℚ := 0
  keyPositiveWords : List String := []
  keyNegativeWords : List String := []
  spatialScore : ℚ := 0
  distanceFromCurrent : ℚ := 0
  detourRate : ℚ := 0
  connectivityScore : ℚ := 1
  temporalScore : ℚ := 0
  isOpenFlag : Bool := true
  predictedCrowdLevel : ℚ := 0
  timeSufficient : Bool := true
deriving DecidableEq

/-- The `overall_trust_score` property of `NodeVerification`. -/
def NodeVerification.overallTrustScore (v : NodeVerification) : ℚ :=
  1/4 * v.consistencyScore + 1/4 * (1 - v.fakeRate) +
    1/4 * v.spatialScore + 1/4 * v.temporalScore

/-- Quality axes of a POI, from `POIQualityScore` in
src/core/poi_quality_filter.py. -/
structure POIQualityScore where
  playability : ℚ
  viewability : ℚ
  popularity : ℚ
  history : ℚ
  overall : ℚ
deriving DecidableEq

/-- Planner state, from `State` in src/core/models.py.  The
`visit_quality` dict is modelled as a total function (entries default
to the values the source writes). -/
structure State where
  currentLocation : Location
  currentTime : ℚ
  visitedHistory : Finset String := ∅
  visitQuality : String → ℚ := fun _ => 0
  remainingBudget : ℚ := 10000

/-- A user action, from `Action` in src/core/models.py. -/
structure Action where
  targetNode : Location
  transportMode : TransportMode
  selectedEdge : Option Edge := none
  estimatedTime : ℚ := 0
  estimatedCost : ℚ := 0

/-- User profile, from `UserProfile` in src/core/models.py.  The
preference dicts that are read with `.get(key, default)` are modelled
as `String → Option ℚ`; `food_preference` is only ever tested for
emptiness, so it is kept as an association list. -/
structure UserProfile where
  purpose : String → Option ℚ := fun _ => none
  intensity : String → Option ℚ := fun _ => none
  pace : String → Option ℚ := fun _ => none
  foodPreference : List (String × ℚ) := []
  budgetLevel : String := "medium"
  avoidCrowdPreference : ℚ := 1/2

/-- A candidate option returned by the planner, from `CandidateOption`
in src/core/models.py (the deep-analysis payload, which no claim
touches, is omitted; `score` is the base score Φ₃ assigned by
`ScoringEngine.compute_score`). -/
structure CandidateOption where
  node : Location
  edges : List Edge
  verification : NodeVerification := {}
  score : ℚ
  matchScore : ℚ := 0
  futurePreview : List Location := []
  qualityScore : Option POIQualityScore := none
  edgeScore : ℚ := 0
  totalScore : ℚ := 0
  riskLevel : String := "info"
  explanation : Option String := none
  cCausal : Option ℚ := none
  region : Option String := none
  visitCount : Option ℕ := none
deriving DecidableEq

/-- One step of session history, from `PathHistory` in
src/core/models.py (timestamp omitted). -/
structure PathHistory where
  action : Action
  previousState : State
  newState : State

/-- A planning session, from `PlanningSession` in src/core/models.py.
The `region_visit_counts` dict (read with `.get(region, 0)`) is
modelled as a total function. -/
structure PlanningSession where
  startLocation : Location
  destinationCity : String := ""
  duration : ℚ := 72
  budget : ℚ := 5000
  userProfile : UserProfile := {}
  currentState : State
  pathHistory : List PathHistory := []
  regionVisitCounts : String → ℕ := fun _ => 0

/-! ### String helpers

Python's `in` on strings is substring containment; we implement it
over the character lists of the strings. -/

/-- Prefix test on character lists. -/
def charsHaveStart : List Char → List Char → Bool
  | [], _ => true
  | _ :: _, [] => false
  | a :: as, b :: bs => a = b && charsHaveStart as bs

/-- Substring test on character lists. -/
def charsContain (pat : List Char) : List Char → Bool
  | [] => charsHaveStart pat []
  | b :: bs => charsHaveStart pat (b :: bs) || charsContain pat bs

/-- The test `containsSub s pat` is Python's `pat in s` for strings. -/
def containsSub (s pat : String) : Bool :=
  charsContain pat.toList s.toList

/-- Python's `str.lower()` (per-character lowering; identity on the CJK
characters every keyword below consists of). -/
def lowerStr (s : String) : String :=
  String.mk (s.toList.map Char.toLower)

/-! ### Region mappings

The repository contains three distinct `_get_region` keyword tables:
the planner's (18 keywords covering four cities), the causal-flow
analyzer's (5 Xiamen keywords) and the explanation layer's
(10 keywords).  Each scans its list in order and returns the first
keyword contained in the POI's name or address, defaulting to "其他". -/

/-- First keyword of `keywords` contained in the POI's name or address,
else "其他". -/
def findRegion (keywords : List String) (poi : Location) : String :=
  match keywords.find? (fun k => containsSub poi.name k || containsSub poi.address k) with
  | some k => k
  | none => "其他"

/-- Source `ProgressivePlanner._get_region` (src/core/progressive_planner.py). -/
def plannerGetRegion (poi : Location) : String :=
  findRegion
    ["鼓浪屿", "厦大", "曾厝垵", "中山路", "环岛路",
     "姑苏", "虎丘", "金鸡湖", "平江路", "山塘街",
     "西湖", "灵隐", "河坊街", "钱塘江",
     "外滩", "陆家嘴", "南京路", "豫园"] poi

/-- Source `CausalFlowAnalyzer._get_region` (src/core/semantic_causal_flow.py). -/
def analyzerGetRegion (poi : Location) : String :=
  findRegion ["鼓浪屿", "厦大", "曾厝垵", "中山路", "环岛路"] poi

/-- Source `ExplanationLayer._get_region` (src/core/explanation_layer.py). -/
def explainerGetRegion (poi : Location) : String :=
  findRegion
    ["鼓浪屿", "厦大", "曾厝垵", "中山路", "环岛路",
     "姑苏", "虎丘", "金鸡湖", "平江路", "山塘街"] poi

/-! ### W-axis tensions and rule-based causal score
(`CausalFlowAnalyzer` in src/core/semantic_causal_flow.py) -/

/-- The tension 4-tuple computed per candidate. -/
structure Tensions where
  novelty : ℚ
  continuity : ℚ
  energy : ℚ
  conflict : ℚ
deriving DecidableEq

/-- One batch task handed to the causal-flow analyzer: current POI,
candidate POI, and the context dict (weather, `time_of_day`, and the
session's `visited_regions` counts, read with `.get(region, 0)`). -/
structure WTask where
  current : Location
  next : Location
  weather : String := "sunny"
  timeOfDay : ℤ := 10
  visitedRegions : String → ℕ := fun _ => 0

/-- Count of strictly positive entries (`positive_count` in
`CausalFlowAnalyzer._compute_tensions`). -/
def posCount (l : List ℚ) : ℕ :=
  (l.filter (fun t => decide (0 < t))).length

/-- Count of strictly negative entries (`negative_count` in
`CausalFlowAnalyzer._compute_tensions`). -/
def negCount (l : List ℚ) : ℕ :=
  (l.filter (fun t => decide (t < 0))).length

/-- The conflict computation of `CausalFlowAnalyzer._compute_tensions`:
`min(positive_count, negative_count) / len(tension_values)` when both
signs occur, else 0. -/
def conflictOf (l : List ℚ) : ℚ :=
  if 0 < posCount l ∧ 0 < negCount l then
    ((min (posCount l) (negCount l) : ℕ) : ℚ) / 3
  else 0

/-- The "famous landmark" token list inside
`CausalFlowAnalyzer._compute_tensions`. -/
def tensionFamousList : List String :=
  ["厦大", "鼓浪屿", "环岛路", "曾厝垵", "中山路",
   "拙政园", "虎丘", "平江路", "姑苏"]

/-- Source `CausalFlowAnalyzer._compute_tensions`: novelty from the region
visit count (region per `analyzerGetRegion`), continuity from category
repetition plus the famous-landmark bonus, energy from the time of day
plus the meal-time restaurant bonus, and conflict from the sign pattern
of the three signed tensions. -/
def computeTensions (task : WTask) : Tensions :=
  let region := analyzerGetRegion task.next
  let visitCount := task.visitedRegions region
  let novelty : ℚ :=
    if visitCount = 0 then 4/5
    else if visitCount = 1 then -3/10
    else -3/5
  let continuityBase : ℚ :=
    if task.current.ptype = task.next.ptype then -2/5 else 3/10
  let continuity : ℚ :=
    if tensionFamousList.any (fun f => containsSub task.next.name f) then
      continuityBase + 1/5
    else continuityBase
  let energyBase : ℚ :=
    if task.timeOfDay < 12 then 3/5
    else if task.timeOfDay < 16 then 1/5
    else if task.timeOfDay < 18 then -1/5
    else -1/2
  let energy : ℚ :=
    if task.next.ptype = POIType.restaurant ∧
        ((11 ≤ task.timeOfDay ∧ task.timeOfDay ≤ 13) ∨
         (17 ≤ task.timeOfDay ∧ task.timeOfDay ≤ 19)) then
      energyBase + 2/5
    else energyBase
  { novelty := novelty, continuity := continuity, energy := energy
    conflict := conflictOf [novelty, continuity, energy] }

/-- Source `CausalFlowAnalyzer._rule_causal_score_simple`: the rule-only
fallback for `C_causal`, used when no reasoning client is configured or
the reasoning call returned the absent sentinel. -/
def ruleCausalScoreSimple (task : WTask) : ℚ :=
  let tensions := computeTensions task
  let score := 1/2 + tensions.novelty * (3/10) + tensions.continuity * (1/5) +
    tensions.energy * (1/10)
  max (1/10) (min (19/20) score)

/-- Source `SemanticCausalFlow.upgrade_to_4d_potential`: `Φ_4D = Φ_3D + F_wc`
(note: the source does not clamp). -/
def upgradeTo4dPotential (phi3d fWc : ℚ) : ℚ :=
  phi3d + fWc

/-! ### Transport edges
(`ProgressivePlanner._compute_*_edge` in src/core/progressive_planner.py).
`d` is the straight-line haversine distance between the two locations,
which the source computes with floating-point trigonometry. -/

/-- Source `ProgressivePlanner._compute_walk_edge`. -/
def computeWalkEdge (fromLoc toLoc : Location) (d : ℚ) : Edge :=
  { id := "walk_" ++ fromLoc.id ++ "_" ++ toLoc.id
    fromLoc := fromLoc
    toLoc := toLoc
    mode := TransportMode.walk
    distance := d
    time := d / 4
    cost := 0 }

/-- Source `ProgressivePlanner._compute_taxi_edge`: road distance estimated as
1.3 × straight-line, speed 30 km/h, fare 13 + 2.5 per km. -/
def computeTaxiEdge (fromLoc toLoc : Location) (d : ℚ) : Edge :=
  let distance := d * (13/10)
  { id := "taxi_" ++ fromLoc.id ++ "_" ++ toLoc.id
    fromLoc := fromLoc
    toLoc := toLoc
    mode := TransportMode.taxi
    distance := distance
    time := distance / 30
    cost := 13 + (5/2) * distance }

/-- Source `ProgressivePlanner._compute_bus_edge`: `None` when the
straight-line distance is below 1 km or above 20 km, otherwise distance
1.4 ×, speed 15 km/h plus 0.3 h wait, flat fare 2. -/
def computeBusEdge (fromLoc toLoc : Location) (d : ℚ) : Option Edge :=
  if d < 1 ∨ d > 20 then none
  else
    let distance := d * (7/5)
    some
      { id := "bus_" ++ fromLoc.id ++ "_" ++ toLoc.id
        fromLoc := fromLoc
        toLoc := toLoc
        mode := TransportMode.bus
        distance := distance
        time := distance / 15 + 3/10
        cost := 2 }

/-- Source `ProgressivePlanner._compute_subway_edge`: `None` when the
straight-line distance is below 3 km or above 30 km, otherwise distance
1.2 ×, speed 35 km/h plus 0.25 h transfer, fare min(2 + distance/10, 8). -/
def computeSubwayEdge (fromLoc toLoc : Location) (d : ℚ) : Option Edge :=
  if d < 3 ∨ d > 30 then none
  else
    let distance := d * (6/5)
    some
      { id := "subway_" ++ fromLoc.id ++ "_" ++ toLoc.id
        fromLoc := fromLoc
        toLoc := toLoc
        mode := TransportMode.subway
        distance := distance
        time := distance / 35 + 1/4
        cost := min (2 + (distance / 10) * 1) 8 }

/-- Source `ProgressivePlanner._compute_edges`: walk kept only below 2 km,
taxi always, bus and subway when their distance windows admit them, in
that order. -/
def computeEdges (fromLoc toLoc : Location) (d : ℚ) : List Edge :=
  let walkEdge := computeWalkEdge fromLoc toLoc d
  (if walkEdge.distance < 2 then [walkEdge] else []) ++
    [computeTaxiEdge fromLoc toLoc d] ++
    (match computeBusEdge fromLoc toLoc d with
     | some e => [e]
     | none => []) ++
    (match computeSubwayEdge fromLoc toLoc d with
     | some e => [e]
     | none => [])

/-! ### State transition and selection
(`ProgressivePlanner` in src/core/progressive_planner.py) -/

/-- Source `ProgressivePlanner._state_transition`: move to the node, add the
edge's travel time and the node's average visit time, record the node
as visited with default quality 0.8, and pay the edge cost plus the
ticket price. -/
def stateTransition (state : State) (action : Action) (edge : Edge) : State :=
  let node := action.targetNode
  { currentLocation := node
    currentTime := state.currentTime + edge.time + node.averageVisitTime
    visitedHistory := insert node.id state.visitedHistory
    visitQuality := fun i => if i = node.id then 4/5 else state.visitQuality i
    remainingBudget := state.remainingBudget - edge.cost - node.ticketPrice }

/-- Source `ProgressivePlanner.user_select`: build the action, apply
`_state_transition`, bump `region_visit_counts` at the planner's region
of the node, store the new state and append to the session history.
The source performs no validation of the selection. -/
def userSelect (session : PlanningSession) (selectedOption : CandidateOption)
    (selectedEdge : Edge) : PlanningSession :=
  let oldState := session.currentState
  let node := selectedOption.node
  let action : Action :=
    { targetNode := node
      transportMode := selectedEdge.mode
      selectedEdge := some selectedEdge
      estimatedTime := selectedEdge.time + node.averageVisitTime
      estimatedCost := selectedEdge.cost + node.ticketPrice }
  let newState := stateTransition oldState action selectedEdge
  let region := plannerGetRegion node
  { session with
    currentState := newState
    regionVisitCounts := fun r =>
      if r = region then session.regionVisitCounts r + 1
      else session.regionVisitCounts r
    pathHistory := session.pathHistory ++
      [{ action := action, previousState := oldState, newState := newState }] }

/-- Python's `min(edges, key=lambda e: e.time)`: the first edge
attaining the minimal time (replacement happens only on strict
decrease), `none` on the empty list (where the source raises). -/
def minByTime (edges : List Edge) : Option Edge :=
  edges.foldl
    (fun acc e =>
      match acc with
      | none => some e
      | some b => if e.time < b.time then some e else some b)
    none

/-- Source `ProgressivePlanner.select_option`: pick the option's minimal-time
edge and apply `user_select` with it.  The caller supplies no edge.  On
an option without edges the source's `min` raises; such options never
leave the pipeline, and we return the session unchanged there. -/
def selectOption (session : PlanningSession) (option : CandidateOption) :
    PlanningSession :=
  match minByTime option.edges with
  | some bestEdge => userSelect session option bestEdge
  | none => session

/-! ### Candidate filters
(`ProgressivePlanner._compute_candidates` and the three filters) -/

/-- Planner configuration entries relevant to the filters, from the
`self.config` dict in `ProgressivePlanner.__init__`
(`enable_temporal_filter` is read with `.get(_, True)` and absent from
the default dict). -/
structure PlannerConfig where
  maxCandidates : ℕ := 10
  maxDistanceKm : ℚ := 50
  enableQualityFilter : Bool := true
  enableTemporalFilter : Bool := true

/-- Python's float `%` (sign of the divisor) for a positive divisor. -/
def qmod (a b : ℚ) : ℚ := a - b * ⌊a / b⌋

/-- Source `Location.is_open`: always open when the weekday has no entry in
`opening_hours`, else the hour-of-day must fall inside the listed
window. -/
def Location.isOpen (poi : Location) (time : ℚ) : Bool :=
  match poi.openingWindow with
  | none => true
  | some (s, e) =>
    let hour := qmod time 24
    decide (s ≤ hour ∧ hour ≤ e)

/-- Source `ProgressivePlanner._spatial_filter`: straight-line distance within
`max_distance_km` (connectivity is assumed). -/
def spatialFilter (dist : Location → Location → ℚ) (cfg : PlannerConfig)
    (current target : Location) : Bool :=
  !(decide (dist current target > cfg.maxDistanceKm))

/-- Source `ProgressivePlanner._temporal_filter`: pass when disabled by
config; else require the POI open now and the remaining duration to
cover the visit plus one hour of travel. -/
def temporalFilter (cfg : PlannerConfig) (poi : Location) (state : State)
    (totalDuration : ℚ) : Bool :=
  if !cfg.enableTemporalFilter then true
  else if !(poi.isOpen state.currentTime) then false
  else
    let remaining := totalDuration - state.currentTime
    let required := poi.averageVisitTime + 1
    !(decide (remaining < required))

/-- Source `ProgressivePlanner._contextual_filter`: with a 9:00 start, the
hour of day gates categories — 0–6 hotel only, 6–9 restaurant /
attraction / hotel, 21–24 restaurant / hotel / entertainment. -/
def contextualFilter (poi : Location) (state : State) : Bool :=
  let hour := qmod (9 + state.currentTime) 24
  (!(decide (0 ≤ hour ∧ hour < 6)) || decide (poi.ptype = POIType.hotel)) &&
  (!(decide (6 ≤ hour ∧ hour < 9)) ||
    decide (poi.ptype = POIType.restaurant ∨ poi.ptype = POIType.attraction ∨
      poi.ptype = POIType.hotel)) &&
  (!(decide (21 ≤ hour ∧ hour < 24)) ||
    decide (poi.ptype = POIType.restaurant ∨ poi.ptype = POIType.hotel ∨
      poi.ptype = POIType.entertainment))

/-- Source `ProgressivePlanner._compute_candidates`: all POIs of the city pool
passing, in order, the spatial, temporal and contextual filters and not
yet visited.  `dist` abstracts `_haversine_distance`; `pois` is the
pool returned by `poi_db.get_pois_in_city`. -/
def computeCandidates (dist : Location → Location → ℚ) (pois : List Location)
    (session : PlanningSession) (cfg : PlannerConfig) : List Location :=
  let state := session.currentState
  pois.filter (fun poi =>
    spatialFilter dist cfg state.currentLocation poi &&
    temporalFilter cfg poi state session.duration &&
    contextualFilter poi state &&
    !(decide (poi.id ∈ state.visitedHistory)))

/-! ### Scoring engine (`ScoringEngine` in src/core/scoring_engine.py) -/

/-- Source `ScoringEngine._match_poi_type_to_purpose`: best purpose weight over
the purposes the POI's category maps to (`.get(type, ['leisure'])`,
weights defaulting to 0). -/
def matchPoiTypeToPurpose (node : Location) (purpose : String → Option ℚ) : ℚ :=
  let mapped : List String :=
    match node.ptype with
    | .attraction => ["culture", "leisure", "adventure", "photography"]
    | .restaurant => ["leisure", "food"]
    | .hotel => ["rest"]
    | .shopping => ["shopping", "leisure"]
    | .entertainment => ["leisure", "adventure"]
    | _ => ["leisure"]
  let scores := mapped.map (fun p => (purpose p).getD 0)
  match scores with
  | [] => 1/2
  | s :: rest => rest.foldl max s

/-- Source `ScoringEngine._match_intensity`: bucket the visit time into an
intensity key and look it up (default 0.5). -/
def matchIntensity (node : Location) (intensity : String → Option ℚ) : ℚ :=
  let key :=
    if node.averageVisitTime < 1 then "very_low"
    else if node.averageVisitTime < 2 then "low"
    else if node.averageVisitTime < 3 then "medium"
    else if node.averageVisitTime < 4 then "high"
    else "very_high"
  (intensity key).getD (1/2)

/-- Source `ScoringEngine._match_pace`: attractions and restaurants are slow,
entertainment fast, the rest medium (default weight 0.5). -/
def matchPace (node : Location) (pace : String → Option ℚ) : ℚ :=
  let key :=
    if node.ptype = POIType.attraction ∨ node.ptype = POIType.restaurant then "slow"
    else if node.ptype = POIType.entertainment then "fast"
    else "medium"
  (pace key).getD (1/2)

/-- Source `ScoringEngine._match_food`: stubbed to 0.7. -/
def matchFood : ℚ := 7/10

/-- Source `ScoringEngine.compute_match_score`: mean of type, intensity and
pace matches, plus the food match for restaurants with a non-empty
food-preference dict. -/
def computeMatchScore (node : Location) (profile : UserProfile) : ℚ :=
  let scores :=
    [matchPoiTypeToPurpose node profile.purpose,
     matchIntensity node profile.intensity,
     matchPace node profile.pace] ++
    (if node.ptype = POIType.restaurant ∧ profile.foodPreference ≠ [] then
      [matchFood] else [])
  match scores with
  | [] => 1/2
  | _ => scores.sum / scores.length

/-- Source `ScoringEngine._compute_quality_score`: the quality component of the
base score — 0.6 × (weighted rating / 5) + 0.4 × positive-review rate,
computed from the verification record. -/
def scoringQualityScore (v : NodeVerification) : ℚ :=
  3/5 * (v.weightedRating / 5) + 2/5 * v.positiveRate

/-- Source `ScoringEngine._compute_novelty_score`: 1 for unvisited POIs, 0
otherwise. -/
def computeNoveltyScore (node : Location) (state : State) : ℚ :=
  if node.id ∈ state.visitedHistory then 0 else 1

/-- Source `ScoringEngine._compute_efficiency_score`: `exp(−t/2)` for the
minimal edge time `t` (0.5 on an empty edge list). -/
noncomputable def computeEfficiencyScore (edges : List Edge) : ℝ :=
  match minByTime edges with
  | none => 1/2
  | some best => Real.exp (-(best.time : ℝ) / 2)

/-- Source `ScoringEngine.compute_score` with the default weight table: the
weighted sum of the six components, clamped to [0, 1]. -/
noncomputable def computeScore (node : Location) (edges : List Edge)
    (v : NodeVerification) (profile : UserProfile) (state : State) : ℝ :=
  let score : ℝ :=
    (1/4) * (computeMatchScore node profile : ℝ) +
    (1/5) * (v.overallTrustScore : ℝ) +
    (1/5) * (scoringQualityScore v : ℝ) +
    (3/20) * computeEfficiencyScore edges +
    (1/10) * (computeNoveltyScore node state : ℝ) +
    (1/10) * ((1 : ℝ) - (v.predictedCrowdLevel : ℝ))
  max 0 (min 1 score)

/-! ### Quality filter (`POIQualityFilter` in
src/core/poi_quality_filter.py) -/

/-- Count of keywords appearing in the Python `str(...)` rendering of
the word list.  For the CJK keywords used a keyword is contained in the
rendering iff it is contained in one of the words (the rendering's
separators contain no CJK characters). -/
def countKeywordMatches (keywords words : List String) : ℕ :=
  (keywords.filter (fun kw => words.any (fun w => containsSub w kw))).length

/-- Source `POIQualityFilter._evaluate_playability`. -/
def evaluatePlayability (poi : Location) (v : NodeVerification) : ℚ :=
  let timeScore : ℚ :=
    if poi.averageVisitTime ≥ 3 then 1/2
    else if poi.averageVisitTime ≥ 3/2 then 3/10
    else if poi.averageVisitTime ≥ 1/2 then 3/20
    else 1/20
  let typeScore : ℚ :=
    match poi.ptype with
    | .attraction => 2/5
    | .restaurant => 1/5
    | .hotel => 1/10
    | .shopping => 3/10
    | .entertainment => 7/20
    | .transportHub => 0
    | .station => 1/5
  let matched := countKeywordMatches
    ["好玩", "有趣", "值得", "推荐", "精彩", "丰富"] v.keyPositiveWords
  min (timeScore + typeScore + min ((matched : ℚ) * (1/20)) (1/10)) 1

/-- Source `POIQualityFilter._evaluate_viewability`. -/
def evaluateViewability (poi : Location) (v : NodeVerification) : ℚ :=
  let typeScore : ℚ :=
    match poi.ptype with
    | .attraction => 3/5
    | .restaurant => 3/10
    | .hotel => 1/5
    | .shopping => 1/4
    | .entertainment => 3/10
    | .transportHub => 1/10
    | .station => 1/5
  let matched := countKeywordMatches
    ["美", "漂亮", "风景", "景色", "拍照", "打卡", "壮观"] v.keyPositiveWords
  let ratingBonus : ℚ :=
    if v.weightedRating ≥ 24/5 then 1/5
    else if v.weightedRating ≥ 9/2 then 3/20
    else if v.weightedRating ≥ 4 then 1/10
    else 0
  min (typeScore + min ((matched : ℚ) * (2/25)) (1/5) + ratingBonus) 1

/-- Source `POIQualityFilter._evaluate_popularity`.  The review-count term is
`min(log10(valid_reviews)/4, 0.4)`; `log10` is transcendental, so the
already-divided value `reviewLogTerm = log10(valid_reviews)/4` is a
parameter (it is ignored when there are no valid reviews, as in the
source). -/
def evaluatePopularity (reviewLogTerm : ℚ) (_poi : Location)
    (v : NodeVerification) : ℚ :=
  let reviewScore : ℚ :=
    if 0 < v.validReviews then min reviewLogTerm (2/5) else 0
  let ratingScore : ℚ :=
    if v.weightedRating ≥ 24/5 then 3/10
    else if v.weightedRating ≥ 9/2 then 1/4
    else if v.weightedRating ≥ 4 then 3/20
    else 1/20
  let sourceScore : ℚ := min ((v.dataSources.length : ℚ) * (1/10)) (3/10)
  min (reviewScore + ratingScore + sourceScore) 1

/-- Source `POIQualityFilter._evaluate_history`. -/
def evaluateHistory (poi : Location) (v : NodeVerification) : ℚ :=
  let nameScore : ℚ :=
    if (["园", "寺", "庙", "塔", "古", "故居", "博物馆", "纪念馆",
         "遗址", "文化", "历史", "传统", "老街", "古镇"] : List String).any
        (fun kw => containsSub (lowerStr poi.name) kw) then 2/5 else 0
  let addressScore : ℚ :=
    if (["老城", "古城", "历史街区"] : List String).any
        (fun kw => containsSub (lowerStr poi.address) kw) then 1/5 else 0
  let matched := countKeywordMatches
    ["历史", "文化", "古老", "传统", "底蕴"] v.keyPositiveWords
  let ticketScore : ℚ := if 0 < poi.ticketPrice then 1/5 else 0
  min (nameScore + addressScore + min ((matched : ℚ) * (1/10)) (1/5) + ticketScore) 1

/-- Source `POIQualityFilter.evaluate_quality` with the default weight table
(playability .30, viewability .25, popularity .25, history .20). -/
def evaluateQuality (reviewLogTerm : ℚ) (poi : Location)
    (v : NodeVerification) : POIQualityScore :=
  let playability := evaluatePlayability poi v
  let viewability := evaluateViewability poi v
  let popularity := evaluatePopularity reviewLogTerm poi v
  let history := evaluateHistory poi v
  { playability := playability
    viewability := viewability
    popularity := popularity
    history := history
    overall := 3/10 * playability + 1/4 * viewability + 1/4 * popularity +
      1/5 * history }

/-! ### Ranking (step 4 of `ProgressivePlanner.get_next_options`) -/

/-- The ranking step `options.sort(key=lambda x: x.score, reverse=True)`
of `get_next_options`: a stable descending sort on the base score alone
(Python's sort is stable; we embed it as a stable insertion sort). -/
def sortOptions (options : List CandidateOption) : List CandidateOption :=
  options.insertionSort (fun a b => b.score ≤ a.score)

/-- The final composed score as the specification words it:
`Φ₄ = clamp(Φ₃ + δ·S_sem + ε·C_causal, 0, 1)` with δ = ε = 0.1.  This
definition follows the spec, for comparison with the code's ranking. -/
def specPhi4 (phi3 sSem cCausal : ℚ) : ℚ :=
  max 0 (min 1 (phi3 + (1/10) * sSem + (1/10) * cCausal))

/-! ### Explanation layer (`ExplanationLayer` in
src/core/explanation_layer.py).  The generative client is absent
(`llm_client=None`), which is the fallback path the claims address;
`random.choice(templates)` is modelled by an explicit draw `r : ℕ`
taken modulo the number of templates. -/

/-- Source `ExplanationLayer._generate_counter_suggestion`: questioning
explanation for a rank-1 option in a region already visited twice,
optionally naming the first alternative's region when it is less
visited; one of four templates is drawn at random. -/
def generateCounterSuggestion (r : ℕ) (option : CandidateOption)
    (visitedRegions : String → ℕ) (alternatives : List CandidateOption) : String :=
  let region := explainerGetRegion option.node
  let visitCount := visitedRegions region
  let alternativeText :=
    match alternatives with
    | [] => ""
    | alt :: _ =>
      let altRegion := explainerGetRegion alt.node
      let altVisit := visitedRegions altRegion
      if altVisit < visitCount then "或者" ++ altRegion ++ "那边还没怎么去过，"
      else ""
  let templates : List String :=
    [region ++ "又去？" ++ alternativeText ++ "要不换个地方透透气？",
     "虽然" ++ region ++ "还不错，但去了" ++ toString visitCount ++ "次了，" ++
       alternativeText ++ "换个区域会不会更新鲜？",
     "我感觉" ++ region ++ "有点去腻了..." ++ alternativeText ++
       "要不要考虑别的地方？",
     region ++ "确实挺好，可是去太多次会不会单调？" ++ alternativeText ++
       "换个方向走走？"]
  templates.getD (r % templates.length) ""

/-- Source `ExplanationLayer._generate_second_choice_appeal`: appeal for the
rank-2 option; deterministic in the novelty-advantage and
energy-advantage branches, otherwise one of three templates drawn at
random. -/
def generateSecondChoiceAppeal (r : ℕ) (option : CandidateOption)
    (visitedRegions : String → ℕ) (novelty energy : ℚ) : String :=
  let region := explainerGetRegion option.node
  let visitCount := visitedRegions region
  if visitCount = 0 ∧ novelty > 1/2 then
    "虽然排第二，但" ++ region ++ "是新地方，说不定更有惊喜"
  else if energy < 0 then
    "第二选择也不错，而且更近，省点力气"
  else
    let templates : List String :=
      ["其实" ++ region ++ "也挺值得去的，不一定非要选第一",
       "第二名也有它的道理，" ++ region ++ "可能更适合你",
       "要不考虑一下这个？" ++ region ++ "也许是个惊喜"]
    templates.getD (r % templates.length) ""

/-- The hour parsed from the context's "HH:MM" time string
(`int(time.split(':')[0]) if ':' in time else 10`). -/
def parseHour (timeStr : String) : ℕ :=
  if timeStr.contains ':' then
    (((timeStr.splitOn ":").headD "").toNat?).getD 10
  else 10

/-- The famous-landmark token list inside
`ExplanationLayer._rule_explain`. -/
def ruleExplainFamousList : List String :=
  ["厦大", "鼓浪屿", "环岛路", "曾厝垵", "中山路",
   "苏州博物馆", "拙政园", "虎丘", "平江路"]

/-- Source `ExplanationLayer._rule_explain`: the deterministic rule-template
fallback, keyed by region visit count, category, time, transport and
weather. -/
def ruleExplain (option : CandidateOption) (visitedRegions : String → ℕ)
    (timeStr weather : String) : String :=
  let poi := option.node
  let region := explainerGetRegion poi
  let visitCount := visitedRegions region
  let hour := parseHour timeStr
  let transportMode :=
    match option.edges with
    | [] => "步行"
    | e :: _ => e.mode.value
  let transportTime : ℤ :=
    match option.edges with
    | [] => 10
    | e :: _ => if e.time = 0 then 10 else ⌊e.time * 60⌋
  if 0 < visitCount then
    (["这会儿有点累了，回熟悉的地方随便走走反而更放松",
      "时间还早，再逛逛这边也不错，不用赶路",
      "上次没逛够吧？正好再来补上"] : List String).getD
      (min (visitCount - 1) 2) ""
  else if poi.ptype = POIType.restaurant then
    if 11 ≤ hour ∧ hour ≤ 13 then "正好到饭点儿了，这家看着不错，试试"
    else "提前找个地方吃点东西，免得一会儿饿"
  else if ruleExplainFamousList.any (fun f => containsSub poi.name f) then
    "走，去" ++ region ++ "看看，这是必打卡的地方"
  else if transportMode = "步行" then
    "就在附近，走过去就行，顺便消消食"
  else if transportTime < 15 then
    "离得很近，过去看看正好"
  else if (containsSub weather "雨" || containsSub (lowerStr weather) "rain") &&
      decide (poi.ptype = POIType.shopping ∨ poi.ptype = POIType.restaurant ∨
        poi.ptype = POIType.entertainment) then
    "下雨天，去室内逛逛最舒服"
  else
    "换个地方透透气，去" ++ region ++ "逛逛"

/-- Source `ExplanationLayer.explain_choice` with no generative client: the
counter-suggestion when the rank-1 option's region has been visited at
least twice, the appeal for rank 2, otherwise the deterministic rule
template. -/
def explainChoice (r : ℕ) (option : CandidateOption)
    (visitedRegions : String → ℕ) (rank : ℕ)
    (alternatives : List CandidateOption) (timeStr weather : String)
    (novelty energy : ℚ) : String :=
  let region := explainerGetRegion option.node
  let visitCount := visitedRegions region
  if 2 ≤ visitCount ∧ rank = 1 then
    generateCounterSuggestion r option visitedRegions alternatives
  else if rank = 2 then
    generateSecondChoiceAppeal r option visitedRegions novelty energy
  else
    ruleExplain option visitedRegions timeStr weather

/-! ## Helper lemmas -/

/-- An element is counted positive or negative at most once, so the two
sign counts together never exceed the list length. -/
lemma posCount_add_negCount_le (l : List ℚ) :
    posCount l + negCount l ≤ l.length := by
  induction l with
  | nil => simp [posCount, negCount]
  | cons x xs ih =>
    simp only [posCount, negCount, List.filter_cons, List.length_cons] at *
    rcases lt_trichotomy 0 x with hx | hx | hx
    · rw [if_pos (by simpa using hx), if_neg (by simpa using not_lt.mpr hx.le)]
      simpa [posCount, negCount, List.length_cons, Nat.add_right_comm] using
        Nat.add_le_add_right ih 1
    · rw [if_neg (by simp [hx]), if_neg (by simp [hx])]
      exact le_trans ih (Nat.le_succ _)
    · rw [if_neg (by simpa using not_lt.mpr hx.le), if_pos (by simpa using hx)]
      simpa [posCount, negCount, List.length_cons, Nat.add_assoc] using
        Nat.add_le_add_right ih 1

/-- The source's guarded conflict equals the unguarded formula
`min(pos, neg) / 3`. -/
lemma conflictOf_eq (l : List ℚ) :
    conflictOf l = ((min (posCount l) (negCount l) : ℕ) : ℚ) / 3 := by
  unfold conflictOf
  by_cases h : 0 < posCount l ∧ 0 < negCount l
  · rw [if_pos h]
  · rw [if_neg h]
    push_neg at h
    have hm : min (posCount l) (negCount l) = 0 := by omega
    rw [hm]
    norm_num

/-- Conflict is positive exactly when both signs occur. -/
lemma conflictOf_pos_iff (l : List ℚ) :
    0 < conflictOf l ↔ 0 < posCount l ∧ 0 < negCount l := by
  rw [conflictOf_eq]
  constructor
  · intro h
    rcases Nat.eq_zero_or_pos (min (posCount l) (negCount l)) with h0 | hpos
    · rw [h0] at h
      norm_num at h
    · exact lt_min_iff.mp hpos
  · rintro ⟨h1, h2⟩
    have hpos : 0 < min (posCount l) (negCount l) := lt_min_iff.mpr ⟨h1, h2⟩
    have hq : (0:ℚ) < ((min (posCount l) (negCount l) : ℕ) : ℚ) := by
      exact_mod_cast hpos
    linarith

/-- Applied to a non-empty list, `minByTime` returns the first edge
whose time is minimal: it is a member and its time bounds every edge's
time. -/
lemma minByTime_mem_le (edges : List Edge) (h : edges ≠ []) :
    ∃ b, minByTime edges = some b ∧ b ∈ edges ∧ ∀ e ∈ edges, b.time ≤ e.time := by
  have key : ∀ (xs : List Edge) (b : Edge),
      ∃ c, xs.foldl (fun acc e =>
          match acc with
          | none => some e
          | some b => if e.time < b.time then some e else some b) (some b) = some c ∧
        (c = b ∨ c ∈ xs) ∧ c.time ≤ b.time ∧ ∀ e ∈ xs, c.time ≤ e.time := by
    intro xs
    induction xs with
    | nil => exact fun b => ⟨b, rfl, Or.inl rfl, le_refl _, by simp⟩
    | cons x xs ih =>
      intro b
      simp only [List.foldl_cons]
      by_cases hx : x.time < b.time
      · rw [if_pos hx]
        obtain ⟨c, hc, hmem, hle, hall⟩ := ih x
        refine ⟨c, hc,
          Or.inr (hmem.elim (fun h => by simp [h]) (fun h => by simp [h])),
          le_trans hle (le_of_lt hx), ?_⟩
        intro e he
        rcases List.mem_cons.mp he with h | h
        · exact h ▸ hle
        · exact hall e h
      · rw [if_neg hx]
        obtain ⟨c, hc, hmem, hle, hall⟩ := ih b
        refine ⟨c, hc,
          hmem.elim (fun h => Or.inl h) (fun h => Or.inr (by simp [h])), hle, ?_⟩
        intro e he
        rcases List.mem_cons.mp he with h | h
        · exact h ▸ le_trans hle (not_lt.mp hx)
        · exact hall e h
  match edges, h with
  | x :: xs, _ =>
    obtain ⟨c, hc, hmem, hle, hall⟩ := key xs x
    refine ⟨c, hc, ?_, ?_⟩
    · rcases hmem with h | h
      · simp [h]
      · simp [h]
    · intro e he
      rcases List.mem_cons.mp he with h | h
      · exact h ▸ hle
      · exact hall e h

/-! ## Concrete fixtures used by counterexamples and witnesses -/

/-- A generic attraction used as a current location in fixtures. -/
def cxLocA : Location :=
  { id := "a", name := "A", lat := 0, lon := 0, ptype := POIType.attraction }

/-- A generic attraction used as a target location in fixtures. -/
def cxLocB : Location :=
  { id := "b", name := "B", lat := 0, lon := 0, ptype := POIType.attraction }

/-! ## Claims -/

/-- C8 — for every candidate, the conflict equals `min(pos, neg) / 3`
over the strictly-positive and strictly-negative counts of the three
signed tensions, lies in {0, 1/3, 2/3}, and is positive exactly when
the three signed tensions contain both a strictly positive and a
strictly negative component. -/
theorem conflict_formula_range_and_mixed_signs (task : WTask) :
    (computeTensions task).conflict =
      ((min (posCount [(computeTensions task).novelty,
          (computeTensions task).continuity, (computeTensions task).energy])
        (negCount [(computeTensions task).novelty,
          (computeTensions task).continuity, (computeTensions task).energy]) : ℕ) : ℚ) / 3 ∧
    ((computeTensions task).conflict = 0 ∨ (computeTensions task).conflict = 1/3 ∨
      (computeTensions task).conflict = 2/3) ∧
    (0 < (computeTensions task).conflict ↔
      0 < posCount [(computeTensions task).novelty,
          (computeTensions task).continuity, (computeTensions task).energy] ∧
      0 < negCount [(computeTensions task).novelty,
          (computeTensions task).continuity, (computeTensions task).energy]) := by
  set vals := [(computeTensions task).novelty,
      (computeTensions task).continuity, (computeTensions task).energy] with hvals
  have hconfl : (computeTensions task).conflict = conflictOf vals := rfl
  have hlen : vals.length = 3 := by simp [hvals]
  have hsum := posCount_add_negCount_le vals
  rw [hlen] at hsum
  refine ⟨hconfl ▸ conflictOf_eq vals, ?_, hconfl ▸ conflictOf_pos_iff vals⟩
  rw [hconfl, conflictOf_eq vals]
  have hmin : min (posCount vals) (negCount vals) ≤ 1 := by omega
  interval_cases h : min (posCount vals) (negCount vals)
  · norm_num
  · norm_num

/-- C10 — the rule-only fallback for `C_causal` equals
`max(0.1, min(0.95, 0.5 + 0.3·novelty + 0.2·continuity + 0.1·energy))`,
always lies in [0.1, 0.95], and is never exactly 0 or 1. -/
theorem rule_causal_fallback_clamped (task : WTask) :
    ruleCausalScoreSimple task =
      max (1/10) (min (19/20)
        (1/2 + (3/10) * (computeTensions task).novelty +
          (1/5) * (computeTensions task).continuity +
          (1/10) * (computeTensions task).energy)) ∧
    1/10 ≤ ruleCausalScoreSimple task ∧
    ruleCausalScoreSimple task ≤ 19/20 ∧
    ruleCausalScoreSimple task ≠ 0 ∧
    ruleCausalScoreSimple task ≠ 1 := by
  have heq : ruleCausalScoreSimple task =
      max (1/10) (min (19/20)
        (1/2 + (3/10) * (computeTensions task).novelty +
          (1/5) * (computeTensions task).continuity +
          (1/10) * (computeTensions task).energy)) := by
    unfold ruleCausalScoreSimple
    ring_nf
  have hlow : (1/10 : ℚ) ≤ ruleCausalScoreSimple task := heq ▸ le_max_left _ _
  have hhigh : ruleCausalScoreSimple task ≤ 19/20 := by
    rw [heq]
    exact max_le (by norm_num) (min_le_left _ _)
  exact ⟨heq, hlow, hhigh, by intro h; rw [h] at hlow; norm_num at hlow,
    by intro h; rw [h] at hhigh; norm_num at hhigh⟩

/-- C9 — `select_option` (the path behind POST /session/id/select,
whose request carries only an option index) applies an edge of the
chosen option whose travel time is minimal among the option's edges. -/
theorem select_option_uses_min_time_edge (session : PlanningSession)
    (option : CandidateOption) (h : option.edges ≠ []) :
    ∃ best, minByTime option.edges = some best ∧ best ∈ option.edges ∧
      (∀ e ∈ option.edges, best.time ≤ e.time) ∧
      selectOption session option = userSelect session option best := by
  obtain ⟨best, hbest, hmem, hle⟩ := minByTime_mem_le option.edges h
  exact ⟨best, hbest, hmem, hle, by rw [selectOption, hbest]⟩

/-- A walk edge taking a quarter hour, for witnesses. -/
def wEdge1 : Edge :=
  { id := "e1", fromLoc := cxLocA, toLoc := cxLocB, mode := TransportMode.walk
    distance := 1, time := 1/4, cost := 0 }

/-- A taxi edge taking half an hour, for witnesses. -/
def wEdge2 : Edge :=
  { id := "e2", fromLoc := cxLocA, toLoc := cxLocB, mode := TransportMode.taxi
    distance := 13/10, time := 1/2, cost := 65/4 }

/-- An option with two edges, for witnesses. -/
def wOption : CandidateOption :=
  { node := cxLocB, edges := [wEdge1, wEdge2], score := 1/2 }

/-- A fresh session at location `cxLocA`, for witnesses. -/
def wSession : PlanningSession :=
  { startLocation := cxLocA
    currentState := { currentLocation := cxLocA, currentTime := 0 } }

/-- Witness for C9 at a concrete two-edge option. -/
theorem select_option_uses_min_time_edge_witness :
    (wOption.edges ≠ []) ∧
    ∃ best, minByTime wOption.edges = some best ∧ best ∈ wOption.edges ∧
      (∀ e ∈ wOption.edges, best.time ≤ e.time) ∧
      selectOption wSession wOption = userSelect wSession wOption best := by
  have h : wOption.edges ≠ [] := by simp [wOption]
  exact ⟨h, select_option_uses_min_time_edge wSession wOption h⟩

/-! ## Transport-edge lemmas (C5) -/

@[simp] lemma computeWalkEdge_distance (f t : Location) (d : ℚ) :
    (computeWalkEdge f t d).distance = d := rfl

@[simp] lemma computeWalkEdge_mode (f t : Location) (d : ℚ) :
    (computeWalkEdge f t d).mode = TransportMode.walk := rfl

@[simp] lemma computeTaxiEdge_mode (f t : Location) (d : ℚ) :
    (computeTaxiEdge f t d).mode = TransportMode.taxi := rfl

/-- The bus edge record produced inside the [1, 20] window. -/
def busEdgeRecord (f t : Location) (d : ℚ) : Edge :=
  { id := "bus_" ++ f.id ++ "_" ++ t.id
    fromLoc := f
    toLoc := t
    mode := TransportMode.bus
    distance := d * (7/5)
    time := d * (7/5) / 15 + 3/10
    cost := 2 }

/-- The subway edge record produced inside the [3, 30] window. -/
def subwayEdgeRecord (f t : Location) (d : ℚ) : Edge :=
  { id := "subway_" ++ f.id ++ "_" ++ t.id
    fromLoc := f
    toLoc := t
    mode := TransportMode.subway
    distance := d * (6/5)
    time := d * (6/5) / 35 + 1/4
    cost := min (2 + (d * (6/5) / 10) * 1) 8 }

/-- The bus window written as the interval it is: an edge is produced
exactly for straight-line distances in [1, 20] (both ends included). -/
lemma computeBusEdge_eq (f t : Location) (d : ℚ) :
    computeBusEdge f t d =
      (if 1 ≤ d ∧ d ≤ 20 then some (busEdgeRecord f t d) else none) := by
  unfold computeBusEdge busEdgeRecord
  by_cases h : d < 1 ∨ d > 20
  · rw [if_pos h, if_neg]
    rintro ⟨h1, h2⟩
    rcases h with h | h <;> linarith
  · push_neg at h
    rw [if_neg, if_pos ⟨h.1, h.2⟩]
    push_neg
    exact h

/-- The subway window written as the interval it is: an edge is
produced exactly for straight-line distances in [3, 30]. -/
lemma computeSubwayEdge_eq (f t : Location) (d : ℚ) :
    computeSubwayEdge f t d =
      (if 3 ≤ d ∧ d ≤ 30 then some (subwayEdgeRecord f t d) else none) := by
  unfold computeSubwayEdge subwayEdgeRecord
  by_cases h : d < 3 ∨ d > 30
  · rw [if_pos h, if_neg]
    rintro ⟨h1, h2⟩
    rcases h with h | h <;> linarith
  · push_neg at h
    rw [if_neg, if_pos ⟨h.1, h.2⟩]
    push_neg
    exact h

lemma computeBusEdge_mode (f t : Location) (d : ℚ) (e : Edge)
    (h : computeBusEdge f t d = some e) : e.mode = TransportMode.bus := by
  rw [computeBusEdge_eq] at h
  split at h
  · cases h
    rfl
  · cases h

lemma computeSubwayEdge_mode (f t : Location) (d : ℚ) (e : Edge)
    (h : computeSubwayEdge f t d = some e) : e.mode = TransportMode.subway := by
  rw [computeSubwayEdge_eq] at h
  split at h
  · cases h
    rfl
  · cases h

/-- The taxi edge is always produced. -/
lemma taxi_mem_computeEdges (f t : Location) (d : ℚ) :
    computeTaxiEdge f t d ∈ computeEdges f t d := by
  simp only [computeEdges, List.append_assoc, List.mem_append]
  right
  left
  simp

/-- C5 — transport enumeration: the walk edge (time d/4, cost 0) is
kept exactly below 2 km; the taxi edge (distance 1.3·d, 30 km/h,
cost 13 + 2.5·distance) is always kept; the bus edge exists exactly for
d ∈ [1, 20] with distance 1.4·d, 15 km/h + 0.3 h wait, cost 2; the
subway edge exists exactly for d ∈ [3, 30] with distance 1.2·d,
35 km/h + 0.25 h transfer, cost min(2 + distance/10, 8); and the edge
list is never empty. -/
theorem transport_enumeration_windows (fromLoc toLoc : Location) (d : ℚ) :
    ((computeWalkEdge fromLoc toLoc d).distance = d ∧
      (computeWalkEdge fromLoc toLoc d).time = d / 4 ∧
      (computeWalkEdge fromLoc toLoc d).cost = 0) ∧
    ((∃ e ∈ computeEdges fromLoc toLoc d, e.mode = TransportMode.walk) ↔ d < 2) ∧
    (∃ e ∈ computeEdges fromLoc toLoc d, e.mode = TransportMode.taxi ∧
      e.distance = d * (13/10) ∧ e.time = d * (13/10) / 30 ∧
      e.cost = 13 + (5/2) * (d * (13/10))) ∧
    computeBusEdge fromLoc toLoc d =
      (if 1 ≤ d ∧ d ≤ 20 then some (busEdgeRecord fromLoc toLoc d) else none) ∧
    computeSubwayEdge fromLoc toLoc d =
      (if 3 ≤ d ∧ d ≤ 30 then some (subwayEdgeRecord fromLoc toLoc d) else none) ∧
    (busEdgeRecord fromLoc toLoc d).distance = d * (7/5) ∧
    (busEdgeRecord fromLoc toLoc d).time = d * (7/5) / 15 + 3/10 ∧
    (busEdgeRecord fromLoc toLoc d).cost = 2 ∧
    (subwayEdgeRecord fromLoc toLoc d).distance = d * (6/5) ∧
    (subwayEdgeRecord fromLoc toLoc d).time = d * (6/5) / 35 + 1/4 ∧
    (subwayEdgeRecord fromLoc toLoc d).cost = min (2 + (d * (6/5) / 10) * 1) 8 ∧
    computeEdges fromLoc toLoc d ≠ [] := by
  refine ⟨⟨rfl, rfl, rfl⟩, ?_, ?_, computeBusEdge_eq _ _ _, computeSubwayEdge_eq _ _ _,
    rfl, rfl, rfl, rfl, rfl, rfl, ?_⟩
  · constructor
    · rintro ⟨e, he, hm⟩
      by_contra hd
      simp only [computeEdges, computeWalkEdge_distance, if_neg hd,
        List.nil_append, List.append_assoc, List.mem_append,
        List.mem_singleton] at he
      rcases he with he | he
      · rw [he] at hm
        simp at hm
      rcases he with he | he
      · rcases hb : computeBusEdge fromLoc toLoc d with _ | eb
        · rw [hb] at he
          simp at he
        · rw [hb] at he
          simp only [List.mem_singleton] at he
          rw [he] at hm
          rw [computeBusEdge_mode _ _ _ _ hb] at hm
          simp at hm
      · rcases hs : computeSubwayEdge fromLoc toLoc d with _ | es
        · rw [hs] at he
          simp at he
        · rw [hs] at he
          simp only [List.mem_singleton] at he
          rw [he] at hm
          rw [computeSubwayEdge_mode _ _ _ _ hs] at hm
          simp at hm
    · intro hd
      refine ⟨computeWalkEdge fromLoc toLoc d, ?_, rfl⟩
      simp [computeEdges, hd]
  · exact ⟨computeTaxiEdge fromLoc toLoc d, taxi_mem_computeEdges _ _ _,
      rfl, rfl, rfl, rfl⟩
  · intro hnil
    have := taxi_mem_computeEdges fromLoc toLoc d
    rw [hnil] at this
    simp at this

/-- C5 counterexample — at a straight-line distance of exactly 20 km
the source keeps the bus edge, while the claim ("kept iff
1 ≤ haversine < 20") says it must be dropped. -/
theorem bus_edge_kept_at_exactly_20km :
    (computeBusEdge cxLocA cxLocB 20).isSome = true ∧
    ¬((1:ℚ) ≤ 20 ∧ (20:ℚ) < 20) := by
  constructor
  · rw [computeBusEdge_eq, if_pos (by norm_num)]
    rfl
  · rintro ⟨-, h⟩
    norm_num at h

/-! ## Tensions and region mapping (C6) -/

/-- C6 (amended) — the novelty tension is +0.8 / −0.3 / −0.6 according
to the region visit count, where the region is computed by the causal
analyzer's own 5-keyword Xiamen table, and it is positive exactly for
an unvisited region. -/
theorem novelty_tension_values (task : WTask) :
    (computeTensions task).novelty =
      (if task.visitedRegions (analyzerGetRegion task.next) = 0 then 4/5
       else if task.visitedRegions (analyzerGetRegion task.next) = 1 then -3/10
       else -3/5) ∧
    (0 < (computeTensions task).novelty ↔
      task.visitedRegions (analyzerGetRegion task.next) = 0) := by
  have h : (computeTensions task).novelty =
      (if task.visitedRegions (analyzerGetRegion task.next) = 0 then 4/5
       else if task.visitedRegions (analyzerGetRegion task.next) = 1 then -3/10
       else -3/5) := rfl
  refine ⟨h, ?_⟩
  rw [h]
  split_ifs with h0 h1
  · exact ⟨fun _ => h0, fun _ => by norm_num⟩
  · exact ⟨fun hc => absurd hc (by norm_num), fun hc => absurd hc h0⟩
  · exact ⟨fun hc => absurd hc (by norm_num), fun hc => absurd hc h0⟩

/-- A Suzhou POI at Tiger Hill: the planner's region table maps it to
"虎丘", the causal analyzer's Xiamen-only table maps it to "其他". -/
def huqiuPoi : Location :=
  { id := "hq", name := "虎丘山风景名胜区", lat := 0, lon := 0
    ptype := POIType.attraction, address := "苏州市虎丘区" }

/-- Region counts after the Session Coordinator has recorded one visit
in the planner's region of `huqiuPoi`. -/
def huqiuCounts : String → ℕ := fun r => if r = "虎丘" then 1 else 0

/-- The W-axis task for `huqiuPoi` under those counts. -/
def huqiuTask : WTask :=
  { current := cxLocA
    next := huqiuPoi
    visitedRegions := huqiuCounts }

/-- C6 counterexample — the analyzer's keyword mapping differs from the
Session Coordinator's: after one recorded visit to the Tiger Hill
region the coordinator's count for the POI's region is 1 (the claim
then requires novelty −0.3), but the analyzer resolves the region to
"其他" with count 0 and yields +0.8. -/
theorem novelty_region_mapping_mismatch :
    plannerGetRegion huqiuPoi = "虎丘" ∧
    analyzerGetRegion huqiuPoi = "其他" ∧
    huqiuCounts (plannerGetRegion huqiuPoi) = 1 ∧
    (computeTensions huqiuTask).novelty = 4/5 ∧
    (4/5 : ℚ) ≠ -3/10 := by
  refine ⟨rfl, rfl, rfl, rfl, by norm_num⟩

/-! ## Selection state transition (C7, C3) -/

/-- C7 (amended) — a selection moves the location to the chosen POI,
adds exactly edge time plus average visit time to the elapsed clock
(strictly increasing whenever that sum is positive), subtracts exactly
edge cost plus ticket price from the budget, inserts the POI id into
the visited set, bumps the planner-region visit count by one leaving
other regions unchanged, and appends one history entry. -/
theorem user_select_state_updates (session : PlanningSession)
    (option : CandidateOption) (edge : Edge)
    (h : 0 < edge.time + option.node.averageVisitTime) :
    (userSelect session option edge).currentState.currentLocation = option.node ∧
    (userSelect session option edge).currentState.currentTime =
      session.currentState.currentTime + edge.time + option.node.averageVisitTime ∧
    session.currentState.currentTime <
      (userSelect session option edge).currentState.currentTime ∧
    (userSelect session option edge).currentState.remainingBudget =
      session.currentState.remainingBudget - edge.cost - option.node.ticketPrice ∧
    (userSelect session option edge).currentState.visitedHistory =
      insert option.node.id session.currentState.visitedHistory ∧
    (userSelect session option edge).regionVisitCounts
        (plannerGetRegion option.node) =
      session.regionVisitCounts (plannerGetRegion option.node) + 1 ∧
    (∀ reg, reg ≠ plannerGetRegion option.node →
      (userSelect session option edge).regionVisitCounts reg =
        session.regionVisitCounts reg) ∧
    (userSelect session option edge).pathHistory.length =
      session.pathHistory.length + 1 := by
  refine ⟨rfl, rfl, ?_, rfl, rfl, ?_, ?_, ?_⟩
  · have : (userSelect session option edge).currentState.currentTime =
        session.currentState.currentTime + edge.time +
          option.node.averageVisitTime := rfl
    rw [this]
    linarith
  · simp [userSelect]
  · intro reg hreg
    simp [userSelect, hreg]
  · simp [userSelect]

/-- Witness for C7 at a concrete selection taking 1/4 + 2 hours. -/
theorem user_select_state_updates_witness :
    (0 < wEdge1.time + wOption.node.averageVisitTime) ∧
    ((userSelect wSession wOption wEdge1).currentState.currentLocation =
        wOption.node ∧
      (userSelect wSession wOption wEdge1).currentState.currentTime =
        wSession.currentState.currentTime + wEdge1.time +
          wOption.node.averageVisitTime ∧
      wSession.currentState.currentTime <
        (userSelect wSession wOption wEdge1).currentState.currentTime ∧
      (userSelect wSession wOption wEdge1).currentState.remainingBudget =
        wSession.currentState.remainingBudget - wEdge1.cost -
          wOption.node.ticketPrice ∧
      (userSelect wSession wOption wEdge1).currentState.visitedHistory =
        insert wOption.node.id wSession.currentState.visitedHistory ∧
      (userSelect wSession wOption wEdge1).regionVisitCounts
          (plannerGetRegion wOption.node) =
        wSession.regionVisitCounts (plannerGetRegion wOption.node) + 1 ∧
      (∀ reg, reg ≠ plannerGetRegion wOption.node →
        (userSelect wSession wOption wEdge1).regionVisitCounts reg =
          wSession.regionVisitCounts reg) ∧
      (userSelect wSession wOption wEdge1).pathHistory.length =
        wSession.pathHistory.length + 1) := by
  have h : 0 < wEdge1.time + wOption.node.averageVisitTime := by
    norm_num [wEdge1, wOption, cxLocB]
  exact ⟨h, user_select_state_updates wSession wOption wEdge1 h⟩

/-- A zero-duration, zero-cost POI co-located with the current
position. -/
def poi0 : Location :=
  { id := "p0", name := "P0", lat := 0, lon := 0, ptype := POIType.attraction
    averageVisitTime := 0, ticketPrice := 0 }

/-- The walk edge of length zero to `poi0`. -/
def edge0 : Edge :=
  { id := "e0", fromLoc := poi0, toLoc := poi0, mode := TransportMode.walk
    distance := 0, time := 0, cost := 0 }

/-- The candidate option for `poi0` with only `edge0`. -/
def opt0 : CandidateOption :=
  { node := poi0, edges := [edge0], score := 1/2 }

/-- The state at `poi0`'s position with nothing visited. -/
def sess0State : State :=
  { currentLocation := poi0
    currentTime := 0
    remainingBudget := 100 }

/-- A session at `poi0`'s position with nothing visited. -/
def sess0 : PlanningSession :=
  { startLocation := poi0
    currentState := sess0State }

/-- C7 counterexample — a valid selection (edge belongs to the option,
POI unvisited) of a zero-distance, zero-visit-time POI leaves
`elapsed_hours` unchanged, so the claim's unconditional strict increase
fails. -/
theorem elapsed_hours_not_strictly_increasing :
    edge0 ∈ opt0.edges ∧
    opt0.node.id ∉ sess0.currentState.visitedHistory ∧
    (userSelect sess0 opt0 edge0).currentState.currentTime =
      sess0.currentState.currentTime := by
  refine ⟨by simp [opt0], by simp [sess0, sess0State, opt0, poi0], ?_⟩
  have h : (userSelect sess0 opt0 edge0).currentState.currentTime =
      sess0.currentState.currentTime + edge0.time +
        opt0.node.averageVisitTime := rfl
  rw [h]
  norm_num [edge0, opt0, poi0]

/-- A POI already recorded as visited in `sess1`. -/
def poi1 : Location :=
  { id := "p1", name := "P1", lat := 0, lon := 0, ptype := POIType.attraction }

/-- An edge that belongs to no option below. -/
def edgeX : Edge :=
  { id := "x", fromLoc := poi1, toLoc := poi1, mode := TransportMode.taxi
    distance := 1, time := 1, cost := 5 }

/-- An option for `poi1` carrying no edges at all. -/
def opt1 : CandidateOption :=
  { node := poi1, edges := [], score := 1/2 }

/-- The state that has already visited `poi1`. -/
def sess1State : State :=
  { currentLocation := poi1
    currentTime := 0
    visitedHistory := {"p1"}
    remainingBudget := 100 }

/-- A session that has already visited `poi1`. -/
def sess1 : PlanningSession :=
  { startLocation := poi1
    currentState := sess1State }

/-- C3 counterexample — `user_select` applies the state transition even
when both preconditions are violated (the chosen edge is not among the
option's edges and the POI is already visited): no `invalid_selection`
failure exists and the session state changes. -/
theorem user_select_applies_without_validation :
    opt1.node.id ∈ sess1.currentState.visitedHistory ∧
    edgeX ∉ opt1.edges ∧
    (userSelect sess1 opt1 edgeX).currentState.currentTime ≠
      sess1.currentState.currentTime := by
  refine ⟨by simp [sess1, sess1State, opt1, poi1], by simp [opt1], ?_⟩
  have h : (userSelect sess1 opt1 edgeX).currentState.currentTime =
      sess1.currentState.currentTime + edgeX.time +
        opt1.node.averageVisitTime := rfl
  rw [h]
  norm_num [sess1, sess1State, edgeX, opt1, poi1]

/-- C3 (amended) — the visited-POI precondition is enforced upstream:
every candidate produced by `_compute_candidates` (hence every option
`get_next_options` can offer) has an unvisited POI id. -/
theorem candidates_exclude_visited (dist : Location → Location → ℚ)
    (pois : List Location) (session : PlanningSession) (cfg : PlannerConfig)
    (p : Location) (hp : p ∈ computeCandidates dist pois session cfg) :
    p.id ∉ session.currentState.visitedHistory := by
  unfold computeCandidates at hp
  rw [List.mem_filter] at hp
  have h := hp.2
  simp only [Bool.and_eq_true, Bool.not_eq_true', decide_eq_false_iff_not] at h
  exact h.2

/-- Witness for C3 at a concrete one-POI pool. -/
theorem candidates_exclude_visited_witness :
    cxLocB ∈ computeCandidates (fun _ _ => 0) [cxLocB] wSession {} ∧
    cxLocB.id ∉ wSession.currentState.visitedHistory := by
  have hq : qmod (9 + wSession.currentState.currentTime) 24 = 9 := by
    have h0 : wSession.currentState.currentTime = 0 := rfl
    rw [h0, qmod]
    norm_num [Int.floor_eq_iff]
  have hmem : cxLocB ∈ computeCandidates (fun _ _ => 0) [cxLocB] wSession {} := by
    unfold computeCandidates
    refine List.mem_filter.mpr ⟨by simp, ?_⟩
    rw [Bool.and_eq_true, Bool.and_eq_true, Bool.and_eq_true]
    refine ⟨⟨⟨?_, ?_⟩, ?_⟩, ?_⟩
    · simp only [spatialFilter, Bool.not_eq_true', decide_eq_false_iff_not]
      norm_num
    · simp only [temporalFilter, Location.isOpen, cxLocB, wSession]
      norm_num
    · simp only [contextualFilter, hq, Bool.and_eq_true, Bool.or_eq_true,
        Bool.not_eq_true', decide_eq_false_iff_not, decide_eq_true_eq, cxLocB]
      norm_num
    · simp [wSession]
  exact ⟨hmem, candidates_exclude_visited _ _ _ _ _ hmem⟩

/-! ## Ranking (C1) -/

/-- An option with the higher base score but a low reasoning scalar. -/
def c1OptA : CandidateOption :=
  { node := cxLocA, edges := [wEdge1], score := 3/5, cCausal := some (1/5) }

/-- An option with the lower base score but a high reasoning scalar. -/
def c1OptB : CandidateOption :=
  { node := cxLocB, edges := [wEdge1], score := 11/20, cCausal := some (9/10) }

/-- C1 counterexample — the ranking step orders by the base score Φ₃
alone: with C_causal values 0.2 and 0.9 (S_sem = 0), option B has the
larger composed Φ₄, yet the code returns A first; moreover the code's
`upgrade_to_4d_potential` exceeds 1, so it does not clamp. -/
theorem ranking_ignores_phi4 :
    sortOptions [c1OptA, c1OptB] = [c1OptA, c1OptB] ∧
    specPhi4 c1OptB.score 0 (9/10) > specPhi4 c1OptA.score 0 (1/5) ∧
    upgradeTo4dPotential (19/20) (3/20) > 1 := by
  refine ⟨?_, ?_, ?_⟩
  · simp only [sortOptions, List.insertionSort, List.orderedInsert]
    rw [if_pos (by norm_num [c1OptA, c1OptB])]
  · norm_num [specPhi4, c1OptA, c1OptB, min_def, max_def]
  · norm_num [upgradeTo4dPotential]

/-- C1 (amended) — the ranking step produces a permutation of the
options that is sorted in descending order of the base score `score`
(Φ₃); the sort is stable, so ties keep the candidate order. -/
theorem ranking_sorted_descending_by_base_score (l : List CandidateOption) :
    List.Pairwise (fun a b : CandidateOption => b.score ≤ a.score)
      (sortOptions l) ∧
    (sortOptions l).Perm l := by
  constructor
  · haveI : IsTotal CandidateOption
        (fun a b : CandidateOption => b.score ≤ a.score) :=
      ⟨fun a b => le_total _ _⟩
    haveI : IsTrans CandidateOption
        (fun a b : CandidateOption => b.score ≤ a.score) :=
      ⟨fun _ _ _ h h' => le_trans h' h⟩
    exact List.sorted_insertionSort _ l
  · exact List.perm_insertionSort _ l

/-! ## Explanation determinism (C2) -/

/-- A POI in the 鼓浪屿 region. -/
def gulangyuPoi : Location :=
  { id := "g", name := "鼓浪屿日光岩", lat := 0, lon := 0
    ptype := POIType.attraction }

/-- The rank-1 option for `gulangyuPoi`. -/
def gulangyuOpt : CandidateOption :=
  { node := gulangyuPoi, edges := [], score := 1/2 }

/-- Region counts with 鼓浪屿 visited twice. -/
def cx2Vr : String → ℕ := fun r => if r = "鼓浪屿" then 2 else 0

/-- Region counts that are identically zero. -/
def cxVr0 : String → ℕ := fun _ => 0

/-- C2 counterexample — with identical session state (rank 1, region
visited twice, same alternatives) two different `random.choice` draws
make the counter-suggestion fallback return different explanations, so
the rule-template fallback is not a deterministic function of its
input and neither is the option list it is attached to. -/
theorem counter_suggestion_depends_on_random_draw :
    explainChoice 0 gulangyuOpt cx2Vr 1 [] "10:00" "sunny" 0 0 ≠
      explainChoice 1 gulangyuOpt cx2Vr 1 [] "10:00" "sunny" 0 0 := by
  decide

/-- C2 (amended) — away from the two randomised fallbacks (the rank-1
counter-suggestion with region count ≥ 2 and the rank-2 appeal) the
explanation is independent of the random draw, hence deterministic in
the session state. -/
theorem explanation_deterministic_off_random_paths (r1 r2 : ℕ)
    (option : CandidateOption) (vr : String → ℕ) (rank : ℕ)
    (alts : List CandidateOption) (timeStr weather : String)
    (novelty energy : ℚ)
    (h1 : ¬(2 ≤ vr (explainerGetRegion option.node) ∧ rank = 1))
    (h2 : rank ≠ 2) :
    explainChoice r1 option vr rank alts timeStr weather novelty energy =
      explainChoice r2 option vr rank alts timeStr weather novelty energy := by
  simp only [explainChoice]
  rw [if_neg h1, if_neg h1, if_neg h2, if_neg h2]

/-- Witness for C2 at rank 3 with nothing visited and two distinct
draws. -/
theorem explanation_deterministic_witness :
    (¬(2 ≤ cxVr0 (explainerGetRegion wOption.node) ∧ (3:ℕ) = 1)) ∧
    ((3:ℕ) ≠ 2) ∧
    explainChoice 0 wOption cxVr0 3 [] "10:00" "sunny" 0 0 =
      explainChoice 5 wOption cxVr0 3 [] "10:00" "sunny" 0 0 := by
  have h1 : ¬(2 ≤ cxVr0 (explainerGetRegion wOption.node) ∧ (3:ℕ) = 1) := by
    decide
  have h2 : (3:ℕ) ≠ 2 := by decide
  exact ⟨h1, h2,
    explanation_deterministic_off_random_paths 0 5 wOption cxVr0 3 []
      "10:00" "sunny" 0 0 h1 h2⟩

/-! ## Base score (C4) -/

/-- C4 (amended) — the base score Φ₃ is the clamped weighted sum with
weights match .25, trust .20, quality .20, efficiency .15, novelty .10,
crowd .10, where the quality component is
`0.6·(weighted_rating/5) + 0.4·positive_rate` computed from the
verification record, efficiency is `exp(−min-edge-time/2)`, novelty is
1 for unvisited POIs and 0 otherwise, and the result lies in [0, 1]. -/
theorem base_score_weighted_sum (node : Location) (edges : List Edge)
    (v : NodeVerification) (profile : UserProfile) (state : State)
    (h : edges ≠ []) :
    0 ≤ computeScore node edges v profile state ∧
    computeScore node edges v profile state ≤ 1 ∧
    ∃ best, minByTime edges = some best ∧ best ∈ edges ∧
      (∀ e ∈ edges, best.time ≤ e.time) ∧
      computeScore node edges v profile state =
        max 0 (min 1 (
          (1/4) * (computeMatchScore node profile : ℝ) +
          (1/5) * (v.overallTrustScore : ℝ) +
          (1/5) * ((3/5 * (v.weightedRating / 5) + 2/5 * v.positiveRate : ℚ) : ℝ) +
          (3/20) * Real.exp (-(best.time : ℝ) / 2) +
          (1/10) * ((if node.id ∈ state.visitedHistory then (0:ℚ) else 1 : ℚ) : ℝ) +
          (1/10) * (1 - (v.predictedCrowdLevel : ℝ)))) := by
  obtain ⟨best, hbest, hmem, hle⟩ := minByTime_mem_le edges h
  refine ⟨le_max_left _ _, max_le (by norm_num) (min_le_left _ _),
    best, hbest, hmem, hle, ?_⟩
  simp only [computeScore, computeEfficiencyScore, hbest, scoringQualityScore,
    computeNoveltyScore]

/-- Witness for C4 at a two-edge option with default verification. -/
theorem base_score_weighted_sum_witness :
    (wOption.edges ≠ []) ∧
    (0 ≤ computeScore cxLocB wOption.edges {} {} wSession.currentState ∧
      computeScore cxLocB wOption.edges {} {} wSession.currentState ≤ 1 ∧
      ∃ best, minByTime wOption.edges = some best ∧ best ∈ wOption.edges ∧
        (∀ e ∈ wOption.edges, best.time ≤ e.time) ∧
        computeScore cxLocB wOption.edges {} {} wSession.currentState =
          max 0 (min 1 (
            (1/4) * (computeMatchScore cxLocB {} : ℝ) +
            (1/5) * ((NodeVerification.overallTrustScore {}) : ℝ) +
            (1/5) * ((3/5 * ((NodeVerification.weightedRating {}) / 5) +
              2/5 * (NodeVerification.positiveRate {}) : ℚ) : ℝ) +
            (3/20) * Real.exp (-(best.time : ℝ) / 2) +
            (1/10) * ((if cxLocB.id ∈ wSession.currentState.visitedHistory
              then (0:ℚ) else 1 : ℚ) : ℝ) +
            (1/10) * (1 - ((NodeVerification.predictedCrowdLevel {}) : ℝ))))) := by
  have h : wOption.edges ≠ [] := by simp [wOption]
  exact ⟨h, base_score_weighted_sum cxLocB wOption.edges {} {}
    wSession.currentState h⟩

/-- A plain attraction with no culturally loaded name tokens. -/
def c4Poi : Location :=
  { id := "q", name := "testpoi", lat := 0, lon := 0
    ptype := POIType.attraction }

/-- A verification record with a perfect rating and all-positive
reviews but no valid review count. -/
def c4Verif : NodeVerification :=
  { weightedRating := 5, positiveRate := 1 }

/-- C4 counterexample — the quality component used by
`compute_score` (here 1) differs from `QualityScore.overall` computed
by the quality filter for the same POI and verification (97/200), so
the quality component does not equal `QualityScore.overall`. -/
theorem quality_component_differs_from_overall :
    scoringQualityScore c4Verif = 1 ∧
    (evaluateQuality 0 c4Poi c4Verif).overall = 97/200 ∧
    scoringQualityScore c4Verif ≠ (evaluateQuality 0 c4Poi c4Verif).overall := by
  have hm0 : ∀ kws : List String, countKeywordMatches kws [] = 0 := by
    intro kws
    simp [countKeywordMatches]
  have hw : c4Verif.keyPositiveWords = [] := rfl
  have h1 : scoringQualityScore c4Verif = 1 := by
    show (3:ℚ)/5 * (5 / 5) + 2/5 * 1 = 1
    norm_num
  have hpl : evaluatePlayability c4Poi c4Verif = 7/10 := by
    simp only [evaluatePlayability, hw, hm0, c4Poi]
    norm_num [min_def]
  have hvw : evaluateViewability c4Poi c4Verif = 4/5 := by
    simp only [evaluateViewability, hw, hm0, c4Poi, c4Verif]
    norm_num [min_def]
  have hpo : evaluatePopularity 0 c4Poi c4Verif = 3/10 := by
    simp only [evaluatePopularity, c4Poi, c4Verif]
    norm_num [min_def]
  have hname : (["园", "寺", "庙", "塔", "古", "故居", "博物馆", "纪念馆",
      "遗址", "文化", "历史", "传统", "老街", "古镇"] : List String).any
      (fun kw => containsSub (lowerStr "testpoi") kw) = false := by decide
  have haddr : (["老城", "古城", "历史街区"] : List String).any
      (fun kw => containsSub (lowerStr "") kw) = false := by decide
  have hhi : evaluateHistory c4Poi c4Verif = 0 := by
    simp only [evaluateHistory, hw, hm0, c4Poi, hname, haddr]
    norm_num [min_def]
  have h2 : (evaluateQuality 0 c4Poi c4Verif).overall = 97/200 := by
    simp only [evaluateQuality, hpl, hvw, hpo, hhi]
    norm_num
  refine ⟨h1, h2, ?_⟩
  rw [h1, h2]
  norm_num

end TravelAI
